import Mathlib

/-
  Verification of the agglomeration core of the bone-klod game.

  Shallow embedding of the absorb/grow/shatter subsystem found in
  src/ball.rs, src/ball/anim.rs and src/powers.rs.  Scalar f32 values are
  modelled as rationals; 3-vectors as triples of rationals.  Vector norms
  are irrational in general, so wherever the source calls Vec3::length()
  the model takes the scalar length as an input (documented at each site),
  using the identity that scaling a vector by a non-negative constant c
  scales its euclidean length by c.  Rotation quaternions are not
  interpreted by any verified property and are omitted from the transform
  model; translation and scale are modelled exactly.
-/

attribute [local semireducible] Rat.add Rat.mul Rat.inv Rat.sub Rat.ofScientific

/-- A 3-component vector with rational coordinates (models bevy Vec3). -/
structure Vec3 where
  x : ℚ
  y : ℚ
  z : ℚ
deriving DecidableEq

/-- Componentwise addition of vectors. -/
def Vec3.add (v w : Vec3) : Vec3 := ⟨v.x + w.x, v.y + w.y, v.z + w.z⟩

/-- Scalar multiplication of a vector. -/
def Vec3.smul (c : ℚ) (v : Vec3) : Vec3 := ⟨c * v.x, c * v.y, c * v.z⟩

/-- The zero vector. -/
def Vec3.zero : Vec3 := ⟨0, 0, 0⟩

/-- Squared euclidean length; used to justify that scaling a vector by c
scales its squared length by c squared, hence its length by c for
non-negative c. -/
def Vec3.lengthSq (v : Vec3) : ℚ := v.x * v.x + v.y * v.y + v.z * v.z

/-- Model of bevy Transform restricted to the fields the verified
properties inspect: translation and scale (the rotation quaternion is
carried through the source unchanged and never read by the core logic). -/
structure Transform where
  translation : Vec3
  scale : Vec3
deriving DecidableEq

/-- Transform::default(): zero translation, unit scale. -/
def Transform.default : Transform := ⟨Vec3.zero, ⟨1, 1, 1⟩⟩

/-- Model of bevy_rapier Velocity: linear and angular parts. -/
structure Velocity where
  linvel : Vec3
  angvel : Vec3
deriving DecidableEq

/-- Velocity::default(): both parts zero. -/
def Velocity.default : Velocity := ⟨Vec3.zero, Vec3.zero⟩

/-- The Power enum of src/powers.rs. -/
inductive Power where
  | Fire
  | Water
  | Cat
  | AmberRod
  | Dig
  | Saw
  | None
deriving DecidableEq

/-- KLOD_INITIAL_WEIGHT in src/ball.rs: the baseline mass 4.2. -/
def KLOD_INITIAL_WEIGHT : ℚ := 42 / 10

/-- KLOD_INITIAL_RADIUS in src/ball.rs. -/
def KLOD_INITIAL_RADIUS : ℚ := 1

/-- MAX_KLOD_SPEED in src/ball.rs. -/
def MAX_KLOD_SPEED : ℚ := 28

/-- The Klod component: carries only the accumulated weight
(the total mass of the aggregate). -/
structure Klod where
  weight : ℚ
deriving DecidableEq

/-- Klod::within_radius (src/ball.rs lines 43-49): the distance argument
must be strictly below weight / KLOD_INITIAL_WEIGHT. -/
def Klod.within_radius (k : Klod) (distance : ℚ) : Bool :=
  let max_distance := k.weight / KLOD_INITIAL_WEIGHT
  decide (distance < max_distance)

/-- Klod::can_slurp (src/ball.rs lines 50-60).  The source computes
speed_bonus from velocity.length(); the model takes that scalar length
as the speed argument. -/
def Klod.can_slurp (k : Klod) (weight : ℚ) (speed : ℚ) : Bool :=
  let speed_bonus := max (speed * (12 / 10) / MAX_KLOD_SPEED) (1 / 2)
  let weight_limit := k.weight / 10
  decide (weight < speed_bonus * weight_limit)

/-- The radius gate exactly as applied inside agglo_to_klod
(src/ball.rs lines 235-240): the relative translation is first scaled by
0.8 (trans.translation = trans.translation * 0.8) and only then is its
length compared by within_radius; scaling a vector by 0.8 scales its
length by 0.8.  relDist is the length of the unscaled relative
translation. -/
def radius_gate (k : Klod) (relDist : ℚ) : Bool :=
  k.within_radius ((8 / 10) * relDist)

/-- Radius gate as worded by the spec: relative distance strictly below
total_mass / BASELINE_MASS. -/
def spec_radius_gate (total_mass relDist : ℚ) : Prop :=
  relDist < total_mass / KLOD_INITIAL_WEIGHT

/-- Weight gate as worded by the spec:
candidate_weight < max(speed * 1.2 / MAX_SPEED, 0.5) * (total_mass / 10). -/
def spec_weight_gate (total_mass weight speed : ℚ) : Prop :=
  weight < max (speed * (12 / 10) / MAX_KLOD_SPEED) (1 / 2) * (total_mass / 10)

/-- One KlodElem limb record together with the components the source
attaches to the same entity (spawn_klod_elem, src/ball.rs lines 82-107):
the optional link to the absorbed scene entity, the Power tag, the
collider mass, the fixed local Transform and the engine-maintained
GlobalTransform (inserted as GlobalTransform::default() at spawn and
updated by the engine transform propagation afterwards).  Collider shape,
friction and restitution are carried verbatim by the source and never
read by the verified properties, so they are not modelled. -/
structure KlodElem where
  scene : Option Nat
  power : Power
  mass : ℚ
  pose : Transform
  globalPose : Transform
deriving DecidableEq

/-- The original core ball limb created by spawn_ball
(src/ball.rs lines 108-128): no scene link, Power::None, mass
KLOD_INITIAL_WEIGHT, default transform. -/
def ball_elem : KlodElem :=
  ⟨none, Power.None, KLOD_INITIAL_WEIGHT, Transform.default, Transform.default⟩

/-- A decorative KlodVisualElem entity that is not the scene counterpart
of a limb (the six ornamental hand parts), with its local Transform and
engine-maintained GlobalTransform. -/
structure VisualElem where
  transform : Transform
  globalTransform : Transform
deriving DecidableEq

/-- The six axis directions used by spawn_klod_visuals
(src/ball/anim.rs lines 15-41). -/
def hand_axes : List Vec3 :=
  [⟨1, 0, 0⟩, ⟨-1, 0, 0⟩, ⟨0, 1, 0⟩, ⟨0, -1, 0⟩, ⟨0, 0, 1⟩, ⟨0, 0, -1⟩]

/-- One ornamental hand part as spawned by spawn_klod_visuals: target is
axis * KLOD_INITIAL_RADIUS * 0.8, translation starts at target * 10 and
scale at 0.7 (the MoveToward animation is engine-side and not modelled);
the GlobalTransform starts at its bundle default. -/
def hand_part (axis : Vec3) : VisualElem :=
  { transform := { translation := Vec3.smul 10 (Vec3.smul (KLOD_INITIAL_RADIUS * (8 / 10)) axis),
                   scale := ⟨7 / 10, 7 / 10, 7 / 10⟩ },
    globalTransform := Transform.default }

/-- The decorative entities present on a freshly spawned klod. -/
def initial_visuals : List VisualElem := hand_axes.map hand_part

/-- The OrbitCamera state of the KlodCamera entity: whether an
OrbitCamera::follows(klod) component is installed. -/
structure Cam where
  followsKlod : Bool
deriving DecidableEq

/-- The aggregate state: the Klod weight, its rapier Velocity, the limb
roster (KlodElem entities), the decorative-only KlodVisualElem entities
(hand parts) and the absorbed candidate entities re-parented under the
klod together with the Transform stored on them at absorption time.
Re-parented candidates also carry KlodVisualElem in the source; at
shatter time the commands issued for them by the visuals loop are
overwritten by the later limb loop (command application order), so the
model routes them through the limb branch only. -/
structure KlodState where
  weight : ℚ
  velocity : Velocity
  elems : List KlodElem
  visuals : List VisualElem
  reparented : List (Nat × Transform)
deriving DecidableEq

/-- The Klod component of an aggregate state. -/
def KlodState.klod (k : KlodState) : Klod := ⟨k.weight⟩

/-- The KlodState created by spawn_klod (src/ball.rs lines 158-189). -/
def initial_klod : KlodState :=
  { weight := KLOD_INITIAL_WEIGHT,
    velocity := Velocity.default,
    elems := [ball_elem],
    visuals := initial_visuals,
    reparented := [] }

/-- An Agglomerable candidate still free in the world, with the
components read by agglo_to_klod: its entity id, its Agglomerable weight,
its Power tag, its transform relative to the klod root at the current
tick (output of transform_relative_to, src/ball.rs lines 204-208) and
the euclidean length relDist of that relative translation (supplied as a
scalar because vector norms are irrational over the rationals). -/
structure Agglo where
  id : Nat
  weight : ℚ
  power : Power
  relPose : Transform
  relDist : ℚ
deriving DecidableEq

/-- A body released into the world by destroy_klod, with the transform
and the rapier Velocity inserted on it. -/
structure DetachedBody where
  transform : Transform
  velocity : Velocity
deriving DecidableEq

/-- The world state touched by the agglomeration core: at most one Klod
(bevy queries with get_single), the KlodCamera, the free Agglomerable
candidates and the dynamic bodies released by shatter. -/
structure World where
  klod : Option KlodState
  cam : Option Cam
  agglos : List Agglo
  detached : List DetachedBody
deriving DecidableEq

/-- An AgglomerateToKlod event (src/ball.rs lines 191-195): the candidate
entity and its Agglomerable weight snapshotted by shlurp_agglomerable at
contact time.  The klod field of the source event is represented by the
single klod slot of the World. -/
structure AgglomerateToKlod where
  agglo : Nat
  agglo_weight : ℚ
deriving DecidableEq

/-- The pose mutation performed by agglo_to_klod line 236:
trans.translation = trans.translation * 0.8 (rotation and scale kept). -/
def scale_translation (t : Transform) : Transform :=
  { t with translation := Vec3.smul (8 / 10) t.translation }

/-- The acceptance test of agglo_to_klod lines 237-243: the radius gate
on the scaled relative distance, then the weight gate against the klod
velocity length (passed as the scalar speed). -/
def slurp_accepted (speed : ℚ) (k : KlodState) (a : Agglo) (ev : AgglomerateToKlod) : Bool :=
  k.klod.within_radius ((8 / 10) * a.relDist) && k.klod.can_slurp ev.agglo_weight speed

/-- Processing of one AgglomerateToKlod event by agglo_to_klod
(src/ball.rs lines 210-269).  speed is the euclidean length of the klod
linear velocity at this tick.  If the klod query fails the event is
skipped; if the candidate query fails the event is skipped; if a gate
fails the event is skipped.  Otherwise the candidate loses its
Agglomerable bundle and collider, receives the scaled relative pose and
KlodVisualElem, is re-parented under the klod, the klod weight grows by
the event weight, and a new KlodElem is spawned with the same pose and a
GlobalTransform::default(). -/
def agglo_to_klod_event (speed : ℚ) (w : World) (ev : AgglomerateToKlod) : World :=
  match w.klod with
  | none => w
  | some k =>
    match w.agglos.find? (fun a => decide (a.id = ev.agglo)) with
    | none => w
    | some a =>
      let trans := scale_translation a.relPose
      if slurp_accepted speed k a ev then
        { w with
          agglos := w.agglos.filter (fun b => decide (¬ b.id = ev.agglo)),
          klod := some
            { k with
              weight := k.weight + ev.agglo_weight,
              elems := k.elems ++
                [⟨some ev.agglo, a.power, ev.agglo_weight, trans, Transform.default⟩],
              reparented := k.reparented ++ [(ev.agglo, trans)] } }
      else w

/-- Draining of the event queue, one (speed, event) pair at a time, in
emission order, as the for-loop of agglo_to_klod does; the speed may
differ between ticks, so each event carries the speed current when it is
processed. -/
def run_absorbs (w : World) (evs : List (ℚ × AgglomerateToKlod)) : World :=
  evs.foldl (fun acc p => agglo_to_klod_event p.1 acc p.2) w

/-- The weights of the events of a drain that are accepted (pass both
gates against the world state current when they are processed). -/
def accepted_weights (w : World) : List (ℚ × AgglomerateToKlod) → List ℚ
  | [] => []
  | (s, ev) :: rest =>
    (match w.klod, w.agglos.find? (fun a => decide (a.id = ev.agglo)) with
     | some k, some a => if slurp_accepted s k a ev then [ev.agglo_weight] else []
     | _, _ => []) ++ accepted_weights (agglo_to_klod_event s w ev) rest

/-- destroy_klod (src/ball/anim.rs lines 55-108) given the number of
pending DestroyKlodEvent events.  With no event, or when the klod
Velocity query fails, nothing is touched.  Otherwise the klod velocity
is captured once as old_vel and zeroed; every decorative KlodVisualElem
is detached and released with linvel = translation * 3 + old_vel.linvel
and the remaining Velocity fields from old_vel; every KlodElem entity is
despawned and its linked scene entity, when present, is released at the
elem global transform with linvel = elem translation * 10 and the
remaining Velocity fields from Velocity::default().  The klod weight is
not touched. -/
def destroy_klod (w : World) (destroy_events : Nat) : World :=
  if destroy_events = 0 then w
  else
    match w.klod with
    | none => w
    | some k =>
      let old_vel := k.velocity
      let fromVisuals := k.visuals.map (fun v =>
        ({ transform := v.globalTransform,
           velocity := { linvel := Vec3.add (Vec3.smul 3 v.transform.translation) old_vel.linvel,
                         angvel := old_vel.angvel } } : DetachedBody))
      let fromScenes := k.elems.filterMap (fun e =>
        match e.scene with
        | none => none
        | some _ => some
            ({ transform := e.globalPose,
               velocity := { linvel := Vec3.smul 10 e.pose.translation,
                             angvel := Vec3.zero } } : DetachedBody))
      { w with
        klod := some { k with velocity := Velocity.default, elems := [], visuals := [],
                              reparented := [] },
        detached := w.detached ++ fromVisuals ++ fromScenes }

/-- spawn_klod (src/ball.rs lines 158-189): a no-op when a Klod already
exists; a no-op when the camera query fails; otherwise a fresh klod is
created at the spawn point and OrbitCamera::follows(klod) is inserted on
the camera. -/
def spawn_klod (w : World) : World :=
  match w.klod with
  | some _ => w
  | none =>
    match w.cam with
    | none => w
    | some _ =>
      { w with klod := some initial_klod, cam := some ⟨true⟩ }

/-- reset_klod (src/ball.rs lines 130-156): when no Klod exists it
delegates to spawn_klod; otherwise the klod weight snaps back to
KLOD_INITIAL_WEIGHT, its velocity is zeroed, every KlodElem and
KlodVisualElem entity (including re-parented candidates) is despawned
recursively, and the ball limb and the decorative visuals are spawned
afresh. -/
def reset_klod (w : World) : World :=
  match w.klod with
  | none => spawn_klod w
  | some _ => { w with klod := some initial_klod }

/-- The lookup map of break_elemental_obstacle (src/powers.rs lines
59-62): the (Power, Entity, KlodElem) query rows collected into a
HashMap keyed by power, so a later row with the same power overwrites an
earlier one; lookup therefore returns the last matching row.  Each row
is (power, elem entity, optional scene link). -/
def kloded_lookup (rows : List (Power × Nat × Option Nat)) (p : Power) :
    Option (Nat × Option Nat) :=
  (rows.reverse.find? (fun r => decide (r.1 = p))).map (fun r => r.2)

/-- destroys_obstacle (src/powers.rs lines 63-67): the required powers of
the obstacle filtered through the lookup map, keeping for each required
power present on the klod the (entity, scene) pair that provides it. -/
def destroys_obstacle (rows : List (Power × Nat × Option Nat)) (required : List Power) :
    List (Nat × Option Nat) :=
  required.filterMap (kloded_lookup rows)

/-- The destruction decision of break_elemental_obstacle line 68: the
obstacle (and the contributing limbs) is destroyed when
destroys_obstacle is non-empty. -/
def obstacle_destroyed (rows : List (Power × Nat × Option Nat)) (required : List Power) : Bool :=
  !(destroys_obstacle rows required).isEmpty

/-- The powers present across the limb roster rows. -/
def present_powers (rows : List (Power × Nat × Option Nat)) : List Power :=
  rows.map (fun r => r.1)

/-- Obstacle rule as worded by the spec: required_powers is a subset of
the powers present across all limbs. -/
def spec_requires_subset (required present : List Power) : Prop :=
  ∀ p ∈ required, p ∈ present

/-- Concrete candidate fixture: entity 5, weight 0.1, relative
translation (1, 0, 0), hence relative distance 1. -/
def test_agglo : Agglo := ⟨5, 1 / 10, Power.Fire, ⟨⟨1, 0, 0⟩, ⟨1, 1, 1⟩⟩, 1⟩

/-- The AgglomerateToKlod event for test_agglo. -/
def test_event : AgglomerateToKlod := ⟨5, 1 / 10⟩

/-- A world holding a freshly spawned klod and test_agglo. -/
def test_world : World :=
  { klod := some initial_klod, cam := some ⟨false⟩, agglos := [test_agglo], detached := [] }

/-- A world with a camera but no klod. -/
def empty_world : World :=
  { klod := none, cam := some ⟨false⟩, agglos := [], detached := [] }

/-- A world with neither camera nor klod. -/
def no_cam_world : World :=
  { klod := none, cam := none, agglos := [], detached := [] }

/-- A world without a klod but with a pending candidate. -/
def no_klod_world : World :=
  { klod := none, cam := none, agglos := [test_agglo], detached := [] }

/-- The limb record produced by absorbing test_agglo: the stored pose is
the relative pose with its translation scaled by 0.8. -/
def test_elem : KlodElem :=
  ⟨some 5, Power.Fire, 1 / 10, ⟨⟨4 / 5, 0, 0⟩, ⟨1, 1, 1⟩⟩, Transform.default⟩

/-- A decorative hand part positioned at (0, 1, 0). -/
def test_visual : VisualElem :=
  { transform := ⟨⟨0, 1, 0⟩, ⟨1, 1, 1⟩⟩, globalTransform := Transform.default }

/-- A klod that absorbed test_agglo and is moving with linear velocity
(1, 0, 0). -/
def test_klod_moving : KlodState :=
  { weight := 43 / 10,
    velocity := ⟨⟨1, 0, 0⟩, Vec3.zero⟩,
    elems := [ball_elem, test_elem],
    visuals := [test_visual],
    reparented := [(5, ⟨⟨4 / 5, 0, 0⟩, ⟨1, 1, 1⟩⟩)] }

/-- The world around test_klod_moving. -/
def test_world_moving : World :=
  { klod := some test_klod_moving, cam := some ⟨true⟩, agglos := [], detached := [] }

/-- Helper: scaling a vector scales its squared length by the square of
the factor; this is the identity behind reading the 0.8-scaled
translation length as 0.8 times the unscaled length. -/
theorem lengthSq_smul (c : ℚ) (v : Vec3) :
    (Vec3.smul c v).lengthSq = c * c * v.lengthSq := by
  simp only [Vec3.smul, Vec3.lengthSq]
  ring

/-- Claim C1 counterexample: an obstacle requiring Fire and Water against
a limb roster carrying only Fire.  The code destroys the obstacle
(destroys_obstacle is non-empty because Fire is present) while the claim
says it must not be destroyed (the required set is not a subset of the
present set). -/
theorem obstacle_any_power_counterexample :
    obstacle_destroyed [(Power.Fire, 1, none)] [Power.Fire, Power.Water] = true ∧
      ¬ spec_requires_subset [Power.Fire, Power.Water]
          (present_powers [(Power.Fire, 1, none)]) := by
  constructor
  · decide
  · intro h
    have := h Power.Water (by decide)
    revert this
    decide

/-- Helper: the power lookup map answers exactly for the powers present
on the roster. -/
theorem kloded_lookup_isSome (rows : List (Power × Nat × Option Nat)) (p : Power) :
    (kloded_lookup rows p).isSome = true ↔ p ∈ present_powers rows := by
  rw [kloded_lookup, Option.isSome_map', List.find?_isSome, present_powers]
  constructor
  · rintro ⟨r, hr, hrp⟩
    rw [List.mem_reverse] at hr
    rw [List.mem_map]
    exact ⟨r, hr, by simpa using hrp⟩
  · intro hp
    rw [List.mem_map] at hp
    obtain ⟨r, hr, hrp⟩ := hp
    exact ⟨r, List.mem_reverse.mpr hr, by simpa using hrp⟩

/-- Claim C1 amended: on contact, the obstacle together with one
contributing limb per satisfied power (and its linked decorative entity)
is destroyed if and only if at least one required power is present among
the limb powers (non-empty intersection), not only when the whole
required set is contained; and every destroyed (entity, scene) pair is
the lookup result of one of the required powers. -/
theorem obstacle_destroyed_iff (rows : List (Power × Nat × Option Nat))
    (required : List Power) :
    (obstacle_destroyed rows required = true ↔
      ∃ p ∈ required, p ∈ present_powers rows) ∧
    (∀ pr ∈ destroys_obstacle rows required, ∃ p ∈ required, kloded_lookup rows p = some pr) := by
  constructor
  · rw [obstacle_destroyed, Bool.not_eq_true', List.isEmpty_eq_false_iff_exists_mem]
    constructor
    · rintro ⟨pr, hpr⟩
      rw [destroys_obstacle, List.mem_filterMap] at hpr
      obtain ⟨p, hp, hlook⟩ := hpr
      refine ⟨p, hp, ?_⟩
      rw [← kloded_lookup_isSome rows p, hlook]
      rfl
    · rintro ⟨p, hp, hpres⟩
      rw [← kloded_lookup_isSome rows p] at hpres
      obtain ⟨pr, hpr⟩ := Option.isSome_iff_exists.mp hpres
      refine ⟨pr, ?_⟩
      rw [destroys_obstacle, List.mem_filterMap]
      exact ⟨p, hp, hpr⟩
  · intro pr hpr
    rw [destroys_obstacle, List.mem_filterMap] at hpr
    obtain ⟨p, hp, hlook⟩ := hpr
    exact ⟨p, hp, hlook⟩

/-- Claim C1 amended witness: a roster carrying Water destroys an
obstacle requiring Water. -/
theorem obstacle_destroyed_iff_witness :
    obstacle_destroyed [(Power.Water, 2, some 3)] [Power.Water] = true :=
  (obstacle_destroyed_iff [(Power.Water, 2, some 3)] [Power.Water]).1.mpr
    ⟨Power.Water, by decide, by decide⟩

/-- Claim C2 counterexample: at total_mass = BASELINE_MASS a candidate at
relative distance 1.1 passes the radius gate of the code (the relative
translation is scaled by 0.8 before the comparison, and 0.88 < 1), while
the claim says the gate passes only for distances strictly below 1. -/
theorem radius_gate_unscaled_counterexample :
    radius_gate ⟨KLOD_INITIAL_WEIGHT⟩ (11 / 10) = true ∧
      ¬ spec_radius_gate KLOD_INITIAL_WEIGHT (11 / 10) := by
  constructor
  · decide
  · rw [spec_radius_gate, KLOD_INITIAL_WEIGHT]
    norm_num

/-- Claim C2 amended: the radius gate of the absorption decision passes
if and only if 0.8 times the relative distance is strictly below
total_mass / BASELINE_MASS, equivalently the relative distance is below
1.25 * total_mass / BASELINE_MASS; at total_mass = BASELINE_MASS the
candidate is within reach iff its relative distance is below 1.25, and
at twice the baseline iff it is below 2.5. -/
theorem radius_gate_scaled_iff (k : Klod) (d : ℚ) :
    (radius_gate k d = true ↔ d < (5 / 4) * (k.weight / KLOD_INITIAL_WEIGHT)) ∧
    (radius_gate ⟨KLOD_INITIAL_WEIGHT⟩ d = true ↔ d < 5 / 4) ∧
    (radius_gate ⟨2 * KLOD_INITIAL_WEIGHT⟩ d = true ↔ d < 5 / 2) := by
  have base : ∀ (kk : Klod), radius_gate kk d = true ↔
      d < (5 / 4) * (kk.weight / KLOD_INITIAL_WEIGHT) := by
    intro kk
    rw [radius_gate, Klod.within_radius, decide_eq_true_eq]
    constructor
    · intro h; linarith
    · intro h; linarith
  refine ⟨base k, ?_, ?_⟩
  · rw [base ⟨KLOD_INITIAL_WEIGHT⟩]
    rw [KLOD_INITIAL_WEIGHT]
    norm_num
  · rw [base ⟨2 * KLOD_INITIAL_WEIGHT⟩]
    rw [KLOD_INITIAL_WEIGHT]
    norm_num

/-- Claim C3: the weight gate of the absorption decision passes if and
only if the candidate weight is strictly below
max(speed * 1.2 / MAX_SPEED, 0.5) * (total_mass / 10); at zero velocity
the floor 0.5 applies, so the gate passes iff the candidate weight is
below 0.5 * total_mass / 10. -/
theorem can_slurp_weight_gate (k : Klod) (wt s : ℚ) :
    (k.can_slurp wt s = true ↔ spec_weight_gate k.weight wt s) ∧
    (k.can_slurp wt 0 = true ↔ wt < (1 / 2) * (k.weight / 10)) := by
  constructor
  · rw [Klod.can_slurp, spec_weight_gate, decide_eq_true_eq]
  · rw [Klod.can_slurp, decide_eq_true_eq]
    have : max ((0 : ℚ) * (12 / 10) / MAX_KLOD_SPEED) (1 / 2) = 1 / 2 := by
      rw [MAX_KLOD_SPEED]; norm_num
    rw [this]

/-- Helper: one drain step leaves the world untouched when the klod
query fails. -/
theorem step_klod_none (speed : ℚ) (w : World) (ev : AgglomerateToKlod)
    (h : w.klod = none) : agglo_to_klod_event speed w ev = w := by
  unfold agglo_to_klod_event
  rw [h]

/-- Helper: one drain step leaves the world untouched when the candidate
query fails. -/
theorem step_find_none (speed : ℚ) (w : World) (ev : AgglomerateToKlod) (k : KlodState)
    (h : w.klod = some k)
    (hf : w.agglos.find? (fun a => decide (a.id = ev.agglo)) = none) :
    agglo_to_klod_event speed w ev = w := by
  unfold agglo_to_klod_event
  rw [h, hf]

/-- Helper: one drain step leaves the world untouched when a gate
fails. -/
theorem step_rejected (speed : ℚ) (w : World) (ev : AgglomerateToKlod) (k : KlodState)
    (a : Agglo) (h : w.klod = some k)
    (hf : w.agglos.find? (fun b => decide (b.id = ev.agglo)) = some a)
    (hrej : slurp_accepted speed k a ev = false) :
    agglo_to_klod_event speed w ev = w := by
  unfold agglo_to_klod_event
  rw [h, hf]
  simp [hrej]

/-- Helper: an accepted drain step removes the candidate from the free
list, adds its weight, appends the limb record with the 0.8-scaled pose
and records the same pose on the re-parented candidate. -/
theorem step_accepted (speed : ℚ) (w : World) (ev : AgglomerateToKlod) (k : KlodState)
    (a : Agglo) (h : w.klod = some k)
    (hf : w.agglos.find? (fun b => decide (b.id = ev.agglo)) = some a)
    (hacc : slurp_accepted speed k a ev = true) :
    agglo_to_klod_event speed w ev =
      { w with
        agglos := w.agglos.filter (fun b => decide (¬ b.id = ev.agglo)),
        klod := some
          { k with
            weight := k.weight + ev.agglo_weight,
            elems := k.elems ++
              [⟨some ev.agglo, a.power, ev.agglo_weight, scale_translation a.relPose,
                Transform.default⟩],
            reparented := k.reparented ++ [(ev.agglo, scale_translation a.relPose)] } } := by
  unfold agglo_to_klod_event
  rw [h, hf]
  simp [hacc]

/-- Helper: the drain of an empty queue is the identity. -/
theorem run_absorbs_nil (w : World) : run_absorbs w [] = w := rfl

/-- Helper: draining a queue processes its head first. -/
theorem run_absorbs_cons (w : World) (s : ℚ) (ev : AgglomerateToKlod)
    (rest : List (ℚ × AgglomerateToKlod)) :
    run_absorbs w ((s, ev) :: rest) = run_absorbs (agglo_to_klod_event s w ev) rest := rfl

/-- Helper: unfolding of accepted_weights on a cons cell. -/
theorem accepted_weights_cons (w : World) (s : ℚ) (ev : AgglomerateToKlod)
    (rest : List (ℚ × AgglomerateToKlod)) :
    accepted_weights w ((s, ev) :: rest) =
      (match w.klod, w.agglos.find? (fun a => decide (a.id = ev.agglo)) with
       | some k, some a => if slurp_accepted s k a ev then [ev.agglo_weight] else []
       | _, _ => []) ++ accepted_weights (agglo_to_klod_event s w ev) rest := rfl

/-- Helper: unfolding of accepted_weights when the klod and the
candidate are both found. -/
theorem accepted_weights_chunk (w : World) (s : ℚ) (ev : AgglomerateToKlod)
    (rest : List (ℚ × AgglomerateToKlod)) (k : KlodState) (a : Agglo)
    (h : w.klod = some k)
    (hf : w.agglos.find? (fun b => decide (b.id = ev.agglo)) = some a) :
    accepted_weights w ((s, ev) :: rest) =
      (if slurp_accepted s k a ev then [ev.agglo_weight] else []) ++
        accepted_weights (agglo_to_klod_event s w ev) rest := by
  rw [accepted_weights_cons, h, hf]

/-- Helper: unfolding of accepted_weights when the candidate is not
found. -/
theorem accepted_weights_skip_find (w : World) (s : ℚ) (ev : AgglomerateToKlod)
    (rest : List (ℚ × AgglomerateToKlod)) (k : KlodState)
    (h : w.klod = some k)
    (hf : w.agglos.find? (fun b => decide (b.id = ev.agglo)) = none) :
    accepted_weights w ((s, ev) :: rest) =
      accepted_weights (agglo_to_klod_event s w ev) rest := by
  rw [accepted_weights_cons, h, hf]
  exact rfl

/-- Helper: over any drain, the klod stays present and its weight grows
by exactly the sum of the accepted event weights. -/
theorem run_absorbs_weight (evs : List (ℚ × AgglomerateToKlod)) :
    ∀ (w : World) (k0 : KlodState), w.klod = some k0 →
      ∃ k1, (run_absorbs w evs).klod = some k1 ∧
        k1.weight = k0.weight + (accepted_weights w evs).sum := by
  induction evs with
  | nil =>
    intro w k0 h
    refine ⟨k0, h, ?_⟩
    simp [accepted_weights]
  | cons p rest ih =>
    intro w k0 h
    obtain ⟨s, ev⟩ := p
    rw [run_absorbs_cons]
    rcases hf : w.agglos.find? (fun a => decide (a.id = ev.agglo)) with _ | a
    · rw [accepted_weights_skip_find w s ev rest k0 h hf]
      obtain ⟨k1, h1, h2⟩ := ih (agglo_to_klod_event s w ev) k0
        (by rw [step_find_none s w ev k0 h hf]; exact h)
      exact ⟨k1, h1, h2⟩
    · rw [accepted_weights_chunk w s ev rest k0 a h hf]
      cases hacc : slurp_accepted s k0 a ev with
      | false =>
        obtain ⟨k1, h1, h2⟩ := ih (agglo_to_klod_event s w ev) k0
          (by rw [step_rejected s w ev k0 a h hf hacc]; exact h)
        refine ⟨k1, h1, ?_⟩
        rw [h2]
        simp
      | true =>
        obtain ⟨k1, h1, h2⟩ := ih (agglo_to_klod_event s w ev)
          { k0 with
            weight := k0.weight + ev.agglo_weight,
            elems := k0.elems ++
              [⟨some ev.agglo, a.power, ev.agglo_weight, scale_translation a.relPose,
                Transform.default⟩],
            reparented := k0.reparented ++ [(ev.agglo, scale_translation a.relPose)] }
          (by rw [step_accepted s w ev k0 a h hf hacc])
        refine ⟨k1, h1, ?_⟩
        rw [h2]
        simp
        ring

/-- Helper: when every queued event weight is non-negative, the sum of
the accepted weights is non-negative. -/
theorem accepted_weights_nonneg (evs : List (ℚ × AgglomerateToKlod)) :
    ∀ (w : World), (∀ p ∈ evs, 0 ≤ p.2.agglo_weight) →
      0 ≤ (accepted_weights w evs).sum := by
  induction evs with
  | nil =>
    intro w _
    simp [accepted_weights]
  | cons p rest ih =>
    intro w hall
    obtain ⟨s, ev⟩ := p
    have htail : 0 ≤ (accepted_weights (agglo_to_klod_event s w ev) rest).sum :=
      ih (agglo_to_klod_event s w ev)
        (fun q hq => hall q (List.mem_cons_of_mem _ hq))
    have hev : 0 ≤ ev.agglo_weight := hall (s, ev) (List.mem_cons_self _ _)
    rcases hk : w.klod with _ | k
    · rw [accepted_weights_cons, hk]
      simpa using htail
    · rcases hf : w.agglos.find? (fun b => decide (b.id = ev.agglo)) with _ | a
      · rw [accepted_weights_skip_find w s ev rest k hk hf]
        exact htail
      · rw [accepted_weights_chunk w s ev rest k a hk hf]
        rw [List.sum_append]
        cases hacc : slurp_accepted s k a ev with
        | false => simpa using htail
        | true =>
          simp [hacc]
          linarith

/-- Helper: over any drain, the existing limb records are preserved; the
roster only ever grows by appending. -/
theorem run_absorbs_elems_extend (evs : List (ℚ × AgglomerateToKlod)) :
    ∀ (w : World) (k : KlodState), w.klod = some k →
      ∃ k2 rest, (run_absorbs w evs).klod = some k2 ∧ k2.elems = k.elems ++ rest := by
  induction evs with
  | nil =>
    intro w k h
    refine ⟨k, [], h, ?_⟩
    simp
  | cons p tail ih =>
    intro w k h
    obtain ⟨s, ev⟩ := p
    rw [run_absorbs_cons]
    rcases hf : w.agglos.find? (fun a => decide (a.id = ev.agglo)) with _ | a
    · exact ih (agglo_to_klod_event s w ev) k
        (by rw [step_find_none s w ev k h hf]; exact h)
    · cases hacc : slurp_accepted s k a ev with
      | false =>
        exact ih (agglo_to_klod_event s w ev) k
          (by rw [step_rejected s w ev k a h hf hacc]; exact h)
      | true =>
        obtain ⟨k2, r2, hk2, he2⟩ := ih (agglo_to_klod_event s w ev)
          { k with
            weight := k.weight + ev.agglo_weight,
            elems := k.elems ++
              [⟨some ev.agglo, a.power, ev.agglo_weight, scale_translation a.relPose,
                Transform.default⟩],
            reparented := k.reparented ++ [(ev.agglo, scale_translation a.relPose)] }
          (by rw [step_accepted s w ev k a h hf hacc])
        refine ⟨k2,
          [⟨some ev.agglo, a.power, ev.agglo_weight, scale_translation a.relPose,
            Transform.default⟩] ++ r2, hk2, ?_⟩
        rw [he2]
        simp

/-- Claim C4: over every drain of accepted absorptions the klod total
mass after each accepted absorption equals the previous value plus the
absorbed candidate weight (the weight after the whole drain is the
starting weight plus exactly the sum of the accepted weights), and for
non-negative candidate weights the total mass never decreases. -/
theorem absorb_mass_accumulation (evs : List (ℚ × AgglomerateToKlod)) (w : World)
    (k0 : KlodState) (h : w.klod = some k0) :
    ∃ k1, (run_absorbs w evs).klod = some k1 ∧
      k1.weight = k0.weight + (accepted_weights w evs).sum ∧
      ((∀ p ∈ evs, 0 ≤ p.2.agglo_weight) → k0.weight ≤ k1.weight) := by
  obtain ⟨k1, h1, h2⟩ := run_absorbs_weight evs w k0 h
  refine ⟨k1, h1, h2, fun hall => ?_⟩
  have hge := accepted_weights_nonneg evs w hall
  linarith

/-- Claim C4 witness: a fresh klod absorbing the weight 0.1 candidate. -/
theorem absorb_mass_accumulation_witness :
    ∃ k1, (run_absorbs test_world [(0, test_event)]).klod = some k1 ∧
      k1.weight = initial_klod.weight + (accepted_weights test_world [(0, test_event)]).sum ∧
      ((∀ p ∈ [((0 : ℚ), test_event)], 0 ≤ p.2.agglo_weight) →
        initial_klod.weight ≤ k1.weight) :=
  absorb_mass_accumulation [(0, test_event)] test_world initial_klod rfl

/-- Claim C5 counterexample: a klod moving at velocity (1, 0, 0) carrying
one absorbed limb at stored translation (0.8, 0, 0) and one decorative
part.  The released limb scene gets velocity (8, 0, 0), the limb
translation times 10 with no recoil added, while the claim predicts
(9, 0, 0), the same plus the captured recoil velocity. -/
theorem destroy_recoil_counterexample :
    ((destroy_klod test_world_moving 1).detached.map (fun b => b.velocity.linvel)) =
      [⟨1, 3, 0⟩, ⟨8, 0, 0⟩] ∧
    Vec3.add (Vec3.smul 10 test_elem.pose.translation) test_klod_moving.velocity.linvel =
      ⟨9, 0, 0⟩ ∧
    (⟨9, 0, 0⟩ : Vec3) ≠ ⟨8, 0, 0⟩ := by
  refine ⟨?_, ?_, ?_⟩ <;> decide

/-- Claim C5 amended: when the shatter runs on an existing klod, its
velocity recoil_base is captured once at the start, the klod velocity is
immediately zeroed, every decorative-only accessory part is released
with velocity equal to its translation times 3 plus recoil_base (and the
recoil angular velocity), while every detached limb scene is released
with velocity equal to its stored translation times 10 only, with no
recoil added and zero angular velocity. -/
theorem destroy_klod_velocities (w : World) (k : KlodState) (h : w.klod = some k) :
    (destroy_klod w 1).klod =
      some
        { k with
          velocity := Velocity.default,
          elems := [],
          visuals := [],
          reparented := [] } ∧
    (∀ v ∈ k.visuals,
      ({ transform := v.globalTransform,
         velocity := { linvel := Vec3.add (Vec3.smul 3 v.transform.translation)
                         k.velocity.linvel,
                       angvel := k.velocity.angvel } } : DetachedBody) ∈
        (destroy_klod w 1).detached) ∧
    (∀ e ∈ k.elems, ∀ s : Nat, e.scene = some s →
      ({ transform := e.globalPose,
         velocity := { linvel := Vec3.smul 10 e.pose.translation,
                       angvel := Vec3.zero } } : DetachedBody) ∈
        (destroy_klod w 1).detached) := by
  have hd : destroy_klod w 1 =
      { w with
        klod := some
          { k with
            velocity := Velocity.default,
            elems := [],
            visuals := [],
            reparented := [] },
        detached := w.detached ++
          k.visuals.map (fun v =>
            ({ transform := v.globalTransform,
               velocity := { linvel := Vec3.add (Vec3.smul 3 v.transform.translation)
                               k.velocity.linvel,
                             angvel := k.velocity.angvel } } : DetachedBody)) ++
          k.elems.filterMap (fun e =>
            match e.scene with
            | none => none
            | some _ => some
                ({ transform := e.globalPose,
                   velocity := { linvel := Vec3.smul 10 e.pose.translation,
                                 angvel := Vec3.zero } } : DetachedBody)) } := by
    unfold destroy_klod
    rw [if_neg Nat.one_ne_zero, h]
  rw [hd]
  refine ⟨rfl, ?_, ?_⟩
  · intro v hv
    exact List.mem_append.mpr (Or.inl (List.mem_append.mpr
      (Or.inr (List.mem_map_of_mem _ hv))))
  · intro e he s hs
    refine List.mem_append.mpr (Or.inr (List.mem_filterMap.mpr ⟨e, he, ?_⟩))
    rw [hs]

/-- Claim C5 amended witness: the moving klod fixture; its decorative
part keeps the recoil, its limb scene does not. -/
theorem destroy_klod_velocities_witness :
    ({ transform := test_visual.globalTransform,
       velocity := { linvel := Vec3.add (Vec3.smul 3 test_visual.transform.translation)
                       test_klod_moving.velocity.linvel,
                     angvel := test_klod_moving.velocity.angvel } } : DetachedBody) ∈
      (destroy_klod test_world_moving 1).detached ∧
    ({ transform := test_elem.globalPose,
       velocity := { linvel := Vec3.smul 10 test_elem.pose.translation,
                     angvel := Vec3.zero } } : DetachedBody) ∈
      (destroy_klod test_world_moving 1).detached :=
  ⟨(destroy_klod_velocities test_world_moving test_klod_moving rfl).2.1
      test_visual (by decide),
   (destroy_klod_velocities test_world_moving test_klod_moving rfl).2.2
      test_elem (by decide) 5 (by decide)⟩

/-- Claim C6 counterexample: one accepted absorption of weight 0.1
followed by one shatter leaves the limb roster empty but the total mass
at 4.3, not at the baseline 4.2; destroy_klod never touches the klod
weight. -/
theorem shatter_mass_counterexample :
    ((destroy_klod (run_absorbs test_world [(0, test_event)]) 1).klod.map
      KlodState.weight) = some (43 / 10) ∧
    ((destroy_klod (run_absorbs test_world [(0, test_event)]) 1).klod.map
      KlodState.elems) = some [] ∧
    (43 / 10 : ℚ) ≠ KLOD_INITIAL_WEIGHT := by
  refine ⟨?_, ?_, ?_⟩ <;> decide

/-- Claim C6 amended: after any drain of absorptions followed by one
shatter the limb roster is empty but the total mass is unchanged by the
shatter; the mass snaps back to KLOD_INITIAL_WEIGHT only when the
separate reset operation runs afterwards, which also recreates the core
ball limb (so after reset the roster holds exactly the ball record, it
is not empty). -/
theorem shatter_roster_reset_mass (evs : List (ℚ × AgglomerateToKlod)) (w : World)
    (k0 : KlodState) (h : w.klod = some k0) :
    ∃ k1 k2 k3,
      (run_absorbs w evs).klod = some k1 ∧
      (destroy_klod (run_absorbs w evs) 1).klod = some k2 ∧
      k2.elems = [] ∧ k2.weight = k1.weight ∧
      (reset_klod (destroy_klod (run_absorbs w evs) 1)).klod = some k3 ∧
      k3.weight = KLOD_INITIAL_WEIGHT ∧ k3.elems = [ball_elem] := by
  obtain ⟨k1, h1, _⟩ := run_absorbs_weight evs w k0 h
  have hk2 : (destroy_klod (run_absorbs w evs) 1).klod =
      some
        { k1 with
          velocity := Velocity.default,
          elems := [],
          visuals := [],
          reparented := [] } := by
    unfold destroy_klod
    rw [if_neg Nat.one_ne_zero, h1]
  have hk3 : (reset_klod (destroy_klod (run_absorbs w evs) 1)).klod =
      some initial_klod := by
    unfold reset_klod
    rw [hk2]
  exact ⟨k1, _, initial_klod, h1, hk2, rfl, rfl, hk3, rfl, rfl⟩

/-- Claim C6 amended witness: the fixture absorption followed by shatter
and reset. -/
theorem shatter_roster_reset_mass_witness :
    ∃ k1 k2 k3,
      (run_absorbs test_world [(0, test_event)]).klod = some k1 ∧
      (destroy_klod (run_absorbs test_world [(0, test_event)]) 1).klod = some k2 ∧
      k2.elems = [] ∧ k2.weight = k1.weight ∧
      (reset_klod (destroy_klod (run_absorbs test_world [(0, test_event)]) 1)).klod =
        some k3 ∧
      k3.weight = KLOD_INITIAL_WEIGHT ∧ k3.elems = [ball_elem] :=
  shatter_roster_reset_mass [(0, test_event)] test_world initial_klod rfl

/-- Claim C7: at most one klod ever exists (the world holds a single
optional slot and spawning is idempotent): spawning twice equals
spawning once, a spawn request while a klod exists is a complete no-op
(mass and everything else unchanged), and spawning twice from a world
with a camera and no klod yields exactly the fresh baseline klod. -/
theorem spawn_klod_idempotent (w : World) :
    spawn_klod (spawn_klod w) = spawn_klod w ∧
    (∀ k, w.klod = some k → spawn_klod w = w) ∧
    (∀ c, w.klod = none → w.cam = some c →
      (spawn_klod (spawn_klod w)).klod = some initial_klod) := by
  refine ⟨?_, ?_, ?_⟩
  · rcases hk : w.klod with _ | k
    · rcases hc : w.cam with _ | c
      · have hs : spawn_klod w = w := by unfold spawn_klod; rw [hk, hc]
        rw [hs, hs]
      · have hs : spawn_klod w = { w with klod := some initial_klod, cam := some ⟨true⟩ } := by
          unfold spawn_klod; rw [hk, hc]
        rw [hs]
        unfold spawn_klod
        rfl
    · have hs : spawn_klod w = w := by unfold spawn_klod; rw [hk]
      rw [hs, hs]
  · intro k hk
    unfold spawn_klod
    rw [hk]
  · intro c hk hc
    have hs : spawn_klod w = { w with klod := some initial_klod, cam := some ⟨true⟩ } := by
      unfold spawn_klod; rw [hk, hc]
    rw [hs]
    unfold spawn_klod
    rfl

/-- Claim C7 witness: a spawn request on a world that has a klod is a
no-op, and two spawns from an empty world with a camera give the
baseline klod. -/
theorem spawn_klod_idempotent_witness :
    spawn_klod test_world = test_world ∧
    (spawn_klod (spawn_klod empty_world)).klod = some initial_klod :=
  ⟨(spawn_klod_idempotent test_world).2.1 initial_klod rfl,
   (spawn_klod_idempotent empty_world).2.2 ⟨false⟩ rfl rfl⟩

/-- Claim C8: an absorption event or a shatter trigger that targets a
klod that cannot be found is silently skipped: the whole world is left
exactly as it was, with no partial mutation. -/
theorem missing_klod_noop (speed : ℚ) (w : World) (ev : AgglomerateToKlod) (n : Nat)
    (h : w.klod = none) :
    agglo_to_klod_event speed w ev = w ∧ destroy_klod w n = w := by
  refine ⟨step_klod_none speed w ev h, ?_⟩
  unfold destroy_klod
  rcases Nat.eq_zero_or_pos n with h0 | hp
  · rw [if_pos h0]
  · rw [if_neg (Nat.pos_iff_ne_zero.mp hp), h]

/-- Claim C8 witness: absorption and shatter on a klod-less world. -/
theorem missing_klod_noop_witness :
    agglo_to_klod_event 0 no_klod_world test_event = no_klod_world ∧
    destroy_klod no_klod_world 1 = no_klod_world :=
  missing_klod_noop 0 no_klod_world test_event 1 rfl

/-- Claim C9 counterexample: absorbing the candidate at relative
translation (1, 0, 0) stores translation (0.8, 0, 0) on the new limb
record and on the re-parented candidate, which differs from the relative
transform at the moment of contact; the claim that the stored pose
equals the relative transform fails because of the 0.8 scaling. -/
theorem stored_pose_counterexample :
    ((agglo_to_klod_event 0 test_world test_event).klod.map
      (fun k => k.elems.map (fun e => e.pose.translation))) =
        some [Vec3.zero, ⟨4 / 5, 0, 0⟩] ∧
    ((agglo_to_klod_event 0 test_world test_event).klod.map
      (fun k => k.reparented.map (fun r => r.2.translation))) = some [⟨4 / 5, 0, 0⟩] ∧
    (⟨4 / 5, 0, 0⟩ : Vec3) ≠ test_agglo.relPose.translation := by
  refine ⟨?_, ?_, ?_⟩ <;> decide

/-- Claim C9 amended: for every accepted absorption the pose stored on
the re-parented candidate and on its new limb record is the transform of
the candidate relative to the klod root at the moment of contact with
its translation scaled by 0.8 (rotation and scale preserved); the same
value is stored in both places, captured once, and later absorptions
never recompute or mutate it (the roster only grows by appending). -/
theorem stored_pose_capture (speed : ℚ) (w : World) (k : KlodState) (a : Agglo)
    (ev : AgglomerateToKlod) (h : w.klod = some k)
    (hf : w.agglos.find? (fun b => decide (b.id = ev.agglo)) = some a)
    (hacc : slurp_accepted speed k a ev = true) :
    ∃ k1, (agglo_to_klod_event speed w ev).klod = some k1 ∧
      k1.elems = k.elems ++
        [⟨some ev.agglo, a.power, ev.agglo_weight, scale_translation a.relPose,
          Transform.default⟩] ∧
      k1.reparented = k.reparented ++ [(ev.agglo, scale_translation a.relPose)] ∧
      (∀ evs, ∃ k2 rest,
        (run_absorbs (agglo_to_klod_event speed w ev) evs).klod = some k2 ∧
        k2.elems = k1.elems ++ rest) := by
  refine ⟨{ k with
      weight := k.weight + ev.agglo_weight,
      elems := k.elems ++
        [⟨some ev.agglo, a.power, ev.agglo_weight, scale_translation a.relPose,
          Transform.default⟩],
      reparented := k.reparented ++ [(ev.agglo, scale_translation a.relPose)] },
    ?_, rfl, rfl, ?_⟩
  · rw [step_accepted speed w ev k a h hf hacc]
  · intro evs
    exact run_absorbs_elems_extend evs _ _
      (by rw [step_accepted speed w ev k a h hf hacc])

/-- Claim C9 amended witness: the fixture absorption. -/
theorem stored_pose_capture_witness :
    ∃ k1, (agglo_to_klod_event 0 test_world test_event).klod = some k1 ∧
      k1.elems = initial_klod.elems ++
        [⟨some test_event.agglo, test_agglo.power, test_event.agglo_weight,
          scale_translation test_agglo.relPose, Transform.default⟩] ∧
      k1.reparented = initial_klod.reparented ++
        [(test_event.agglo, scale_translation test_agglo.relPose)] ∧
      (∀ evs, ∃ k2 rest,
        (run_absorbs (agglo_to_klod_event 0 test_world test_event) evs).klod = some k2 ∧
        k2.elems = k1.elems ++ rest) :=
  stored_pose_capture 0 test_world initial_klod test_agglo test_event rfl
    (by decide) (by decide)

/-- Claim C10: spawning the klod requires a camera: with no camera
entity the spawn is a complete no-op (no klod is created, nothing else
changes), and on success the fresh baseline klod exists and the camera
is set to follow it. -/
theorem spawn_klod_camera (w : World) :
    (w.cam = none → spawn_klod w = w) ∧
    (∀ c, w.klod = none → w.cam = some c →
      (spawn_klod w).klod = some initial_klod ∧ (spawn_klod w).cam = some ⟨true⟩) := by
  constructor
  · intro hc
    unfold spawn_klod
    rcases hk : w.klod with _ | k
    · rw [hc]
    · rfl
  · intro c hk hc
    have hs : spawn_klod w = { w with klod := some initial_klod, cam := some ⟨true⟩ } := by
      unfold spawn_klod; rw [hk, hc]
    rw [hs]
    exact ⟨rfl, rfl⟩

/-- Claim C10 witness: no camera means no klod; with a camera the klod
appears and the camera follows it. -/
theorem spawn_klod_camera_witness :
    spawn_klod no_cam_world = no_cam_world ∧
    ((spawn_klod empty_world).klod = some initial_klod ∧
      (spawn_klod empty_world).cam = some ⟨true⟩) :=
  ⟨(spawn_klod_camera no_cam_world).1 rfl,
   (spawn_klod_camera empty_world).2 ⟨false⟩ rfl rfl⟩
